import Mathlib

/-!
Verification of the embeddings request-handling core of `ai-gateway`
(`src/handler/embedding.rs`).

The handler resolves the client-supplied model name against the shared
`AvailableModels` table, reads the optional per-request `Credentials` from
the request context, invokes the external inference engine
(`handle_embeddings_invoke`, an opaque async collaborator — modelled here
as a function parameter), and normalizes the engine's raw result into the
public `CreateEmbeddingResponse` schema.

Embedding-vector components are scalars that this layer only clones, never
inspects or transforms; they are modelled as `Int` so that every
definition is computable and decidable.
-/

/-- A registered (provider, model) binding.  The registry keys descriptors
by provider-qualified full name; `model` is the canonical model name that
is echoed in responses. -/
structure ModelDescriptor where
  full_name : String
  model : String
  provider : String
  deriving DecidableEq, Repr

/-- The immutable, shared, read-only table of registered models. -/
abbrev AvailableModels := List ModelDescriptor

/-- Client input: model identifier plus input texts. -/
structure CreateEmbeddingRequest where
  model : String
  input : List String
  deriving DecidableEq, Repr

/-- Opaque caller-supplied credential bundle attached to the request
context by upstream middleware. -/
structure Credentials where
  api_key : String
  deriving DecidableEq, Repr

/-- Opaque handle to the shared callback/telemetry sink. -/
structure CallbackHandlerFn where
  tag : String
  deriving DecidableEq, Repr

/-- One raw embedding item produced by the engine: object tag, vector,
positional index. -/
structure RawEmbeddingItem where
  object : String
  embedding : List Int
  index : Nat
  deriving DecidableEq, Repr

/-- Raw token-usage counters from the engine. -/
structure RawUsage where
  prompt_tokens : Nat
  total_tokens : Nat
  deriving DecidableEq, Repr

/-- The engine's raw output: ordered embedding items plus usage. -/
structure RawEmbeddingResult where
  data : List RawEmbeddingItem
  usage : RawUsage
  deriving DecidableEq, Repr

/-- One normalized embedding item of the public response schema. -/
structure EmbeddingData where
  object : String
  embedding : List Int
  index : Nat
  deriving DecidableEq, Repr

/-- Public usage counters. -/
structure EmbeddingUsage where
  prompt_tokens : Nat
  total_tokens : Nat
  deriving DecidableEq, Repr

/-- The public response schema returned to clients. -/
structure CreateEmbeddingResponse where
  object : String
  data : List EmbeddingData
  model : String
  usage : EmbeddingUsage
  deriving DecidableEq, Repr

/-- Errors surfaced by the handler: `modelNotFound` is raised locally at
resolution; `engineError` stands for any opaque failure value produced by
the external engine (network, provider, authorization), carried verbatim. -/
inductive GatewayApiError where
  | modelNotFound : String → GatewayApiError
  | engineError : String → GatewayApiError
  deriving DecidableEq, Repr

/-- Modelled from the spec: `find_model_by_full_name` (declared in
`src/handler/mod.rs`, not part of the provided sources).  Spec §4.1: given
the client-supplied model name string and the shared AvailableModels
table, return the matching ModelDescriptor or fail with `ModelNotFound`;
lookup is exact-match on full name, no fuzzy matching, no fallback. -/
def find_model_by_full_name (name : String) (models : AvailableModels) :
    Except GatewayApiError ModelDescriptor :=
  match models.find? (fun d => d.full_name == name) with
  | some d => .ok d
  | none => .error (.modelNotFound name)

/-- The type of the external inference engine adapter
`handle_embeddings_invoke` (declared in `src/executor/embeddings.rs`, an
external collaborator per spec §6): it receives the parsed request, the
callback sink, the resolved descriptor and the optional credentials, and
returns either a raw result or an opaque failure. -/
abbrev EmbeddingsInvoke :=
  CreateEmbeddingRequest → CallbackHandlerFn → ModelDescriptor →
    Option Credentials → Except GatewayApiError RawEmbeddingResult

/-- `embeddings_handler` from `src/handler/embedding.rs`.  The Rust `?`
operator is rendered as an explicit match that returns the error
unchanged; `req.extensions().get::<Credentials>().cloned()` is modelled by
the `ctx : Option Credentials` argument. -/
def embeddings_handler (handle_embeddings_invoke : EmbeddingsInvoke)
    (request : CreateEmbeddingRequest) (models : AvailableModels)
    (callback_handler : CallbackHandlerFn) (ctx : Option Credentials) :
    Except GatewayApiError CreateEmbeddingResponse :=
  match find_model_by_full_name request.model models with
  | .error e => .error e
  | .ok llm_model =>
    let key_credentials : Option Credentials := ctx
    match handle_embeddings_invoke request callback_handler llm_model key_credentials with
    | .error e => .error e
    | .ok result =>
      let data : List EmbeddingData := result.data.map (fun v =>
        { object := v.object, embedding := v.embedding, index := v.index })
      .ok {
        object := "list",
        data := data,
        model := llm_model.model,
        usage := {
          prompt_tokens := result.usage.prompt_tokens,
          total_tokens := result.usage.total_tokens } }

/-- The Response Normalizer viewed in isolation (spec §4.4): the exact
response the handler builds from a raw result and the resolved
descriptor. -/
def normalizeResponse (llm_model : ModelDescriptor)
    (result : RawEmbeddingResult) : CreateEmbeddingResponse :=
  { object := "list",
    data := result.data.map (fun v =>
      { object := v.object, embedding := v.embedding, index := v.index }),
    model := llm_model.model,
    usage := {
      prompt_tokens := result.usage.prompt_tokens,
      total_tokens := result.usage.total_tokens } }

/-- The four stages of the request flow, for instrumentation. -/
inductive Stage where
  | resolve
  | extract
  | invoke
  | normalize
  deriving DecidableEq, Repr

/-- Instrumented copy of `embeddings_handler` that also records, in
execution order, which stages ran. -/
def embeddings_handler_traced (handle_embeddings_invoke : EmbeddingsInvoke)
    (request : CreateEmbeddingRequest) (models : AvailableModels)
    (callback_handler : CallbackHandlerFn) (ctx : Option Credentials) :
    Except GatewayApiError CreateEmbeddingResponse × List Stage :=
  match find_model_by_full_name request.model models with
  | .error e => (.error e, [Stage.resolve])
  | .ok llm_model =>
    let key_credentials : Option Credentials := ctx
    match handle_embeddings_invoke request callback_handler llm_model key_credentials with
    | .error e => (.error e, [Stage.resolve, Stage.extract, Stage.invoke])
    | .ok result =>
      (.ok (normalizeResponse llm_model result),
        [Stage.resolve, Stage.extract, Stage.invoke, Stage.normalize])

/-- Example descriptor for concrete witnesses. -/
def dEx : ModelDescriptor :=
  { full_name := "provider-x/embed-small", model := "embed-small",
    provider := "provider-x" }

/-- Example request whose model name matches `dEx`. -/
def reqEx : CreateEmbeddingRequest :=
  { model := "provider-x/embed-small", input := ["hello"] }

/-- Example raw engine result with one embedding item. -/
def rawEx : RawEmbeddingResult :=
  { data := [{ object := "embedding", embedding := [1, -2, 3], index := 0 }],
    usage := { prompt_tokens := 5, total_tokens := 5 } }

/-- Example callback sink handle. -/
def cbEx : CallbackHandlerFn := { tag := "sink" }

/-- Example engine that always succeeds with `rawEx`. -/
def invEx : EmbeddingsInvoke := fun _ _ _ _ => .ok rawEx

/-- Example engine that always fails with an opaque network error. -/
def invErrEx : EmbeddingsInvoke := fun _ _ _ _ => .error (.engineError "network")

/-- Example raw result with an empty data sequence and zero counters. -/
def rawEmptyEx : RawEmbeddingResult :=
  { data := [], usage := { prompt_tokens := 0, total_tokens := 0 } }

/-- Example engine that succeeds with the empty raw result. -/
def invEmptyEx : EmbeddingsInvoke := fun _ _ _ _ => .ok rawEmptyEx

/-- Example credential bundle. -/
def credEx : Credentials := { api_key := "k-123" }

/-- A second example request with the same model name but different
input texts. -/
def reqEx2 : CreateEmbeddingRequest :=
  { model := "provider-x/embed-small", input := ["different", "input"] }

/-- Helper: when resolution and invocation both succeed, the handler
returns exactly the normalized response. -/
theorem embeddings_handler_ok_of (inv : EmbeddingsInvoke)
    (request : CreateEmbeddingRequest) (models : AvailableModels)
    (cb : CallbackHandlerFn) (ctx : Option Credentials)
    (m : ModelDescriptor) (raw : RawEmbeddingResult)
    (hm : find_model_by_full_name request.model models = .ok m)
    (hr : inv request cb m ctx = .ok raw) :
    embeddings_handler inv request models cb ctx = .ok (normalizeResponse m raw) := by
  unfold embeddings_handler normalizeResponse
  rw [hm]
  simp only []
  rw [hr]

/-- Helper: a resolution failure is returned unchanged by the handler. -/
theorem embeddings_handler_resolve_error (inv : EmbeddingsInvoke)
    (request : CreateEmbeddingRequest) (models : AvailableModels)
    (cb : CallbackHandlerFn) (ctx : Option Credentials) (e : GatewayApiError)
    (hm : find_model_by_full_name request.model models = .error e) :
    embeddings_handler inv request models cb ctx = .error e := by
  unfold embeddings_handler
  rw [hm]

/-- Helper: an invocation failure is returned unchanged by the handler. -/
theorem embeddings_handler_invoke_error (inv : EmbeddingsInvoke)
    (request : CreateEmbeddingRequest) (models : AvailableModels)
    (cb : CallbackHandlerFn) (ctx : Option Credentials)
    (m : ModelDescriptor) (e : GatewayApiError)
    (hm : find_model_by_full_name request.model models = .ok m)
    (hr : inv request cb m ctx = .error e) :
    embeddings_handler inv request models cb ctx = .error e := by
  unfold embeddings_handler
  rw [hm]
  simp only []
  rw [hr]

/-- Helper: every success of the handler comes from a successful
resolution and a successful invocation, and is the normalized response. -/
theorem embeddings_handler_ok_elim (inv : EmbeddingsInvoke)
    (request : CreateEmbeddingRequest) (models : AvailableModels)
    (cb : CallbackHandlerFn) (ctx : Option Credentials)
    (resp : CreateEmbeddingResponse)
    (h : embeddings_handler inv request models cb ctx = .ok resp) :
    ∃ m raw, find_model_by_full_name request.model models = .ok m ∧
      inv request cb m ctx = .ok raw ∧ resp = normalizeResponse m raw := by
  unfold embeddings_handler at h
  cases hm : find_model_by_full_name request.model models with
  | error e => rw [hm] at h; exact absurd h (by simp)
  | ok m =>
    rw [hm] at h
    simp only [] at h
    cases hr : inv request cb m ctx with
    | error e => rw [hr] at h; exact absurd h (by simp)
    | ok raw =>
      rw [hr] at h
      simp only [Except.ok.injEq] at h
      exact ⟨m, raw, rfl, hr, by rw [← h]; rfl⟩

/-- The trace instrumentation does not change the computed result. -/
theorem embeddings_handler_traced_fst (inv : EmbeddingsInvoke)
    (request : CreateEmbeddingRequest) (models : AvailableModels)
    (cb : CallbackHandlerFn) (ctx : Option Credentials) :
    (embeddings_handler_traced inv request models cb ctx).1 =
      embeddings_handler inv request models cb ctx := by
  cases h : find_model_by_full_name request.model models with
  | error e => simp [embeddings_handler_traced, embeddings_handler, h]
  | ok m =>
    cases h2 : inv request cb m ctx with
    | error e =>
      simp [embeddings_handler_traced, embeddings_handler, normalizeResponse, h, h2]
    | ok r =>
      simp [embeddings_handler_traced, embeddings_handler, normalizeResponse, h, h2]

/-- C2: for every successful invocation, the ordered sequence of
(object, embedding vector, index) triples in the response's data equals,
element for element and in the same order and length, the engine's raw
result data — no reordering, no value transformation. -/
theorem response_data_passthrough (inv : EmbeddingsInvoke)
    (request : CreateEmbeddingRequest) (models : AvailableModels)
    (cb : CallbackHandlerFn) (ctx : Option Credentials)
    (m : ModelDescriptor) (raw : RawEmbeddingResult)
    (resp : CreateEmbeddingResponse)
    (hm : find_model_by_full_name request.model models = .ok m)
    (hr : inv request cb m ctx = .ok raw)
    (hresp : embeddings_handler inv request models cb ctx = .ok resp) :
    resp.data.map (fun v => (v.object, v.embedding, v.index)) =
      raw.data.map (fun v => (v.object, v.embedding, v.index)) := by
  rw [embeddings_handler_ok_of inv request models cb ctx m raw hm hr] at hresp
  simp only [Except.ok.injEq] at hresp
  subst hresp
  simp [normalizeResponse]

/-- Witness for C2 at a concrete run. -/
theorem response_data_passthrough_witness :
    (normalizeResponse dEx rawEx).data.map (fun v => (v.object, v.embedding, v.index)) =
      rawEx.data.map (fun v => (v.object, v.embedding, v.index)) :=
  response_data_passthrough invEx reqEx [dEx] cbEx none dEx rawEx
    (normalizeResponse dEx rawEx) rfl rfl rfl

/-- C3: for every successful response, the response's model field equals
the resolved descriptor's canonical model name, not the client-supplied
request string. -/
theorem response_model_is_canonical (inv : EmbeddingsInvoke)
    (request : CreateEmbeddingRequest) (models : AvailableModels)
    (cb : CallbackHandlerFn) (ctx : Option Credentials)
    (m : ModelDescriptor) (raw : RawEmbeddingResult)
    (resp : CreateEmbeddingResponse)
    (hm : find_model_by_full_name request.model models = .ok m)
    (hr : inv request cb m ctx = .ok raw)
    (hresp : embeddings_handler inv request models cb ctx = .ok resp) :
    resp.model = m.model := by
  rw [embeddings_handler_ok_of inv request models cb ctx m raw hm hr] at hresp
  simp only [Except.ok.injEq] at hresp
  subst hresp
  rfl

/-- Witness for C3 at a concrete run where the client string
("provider-x/embed-small") differs from the canonical name
("embed-small"). -/
theorem response_model_is_canonical_witness :
    (normalizeResponse dEx rawEx).model = dEx.model ∧
      dEx.model ≠ reqEx.model :=
  ⟨response_model_is_canonical invEx reqEx [dEx] cbEx none dEx rawEx
    (normalizeResponse dEx rawEx) rfl rfl rfl, by decide⟩

/-- C5: for every successful response, the usage counters prompt_tokens
and total_tokens equal, unchanged, the engine's raw usage counters. -/
theorem response_usage_verbatim (inv : EmbeddingsInvoke)
    (request : CreateEmbeddingRequest) (models : AvailableModels)
    (cb : CallbackHandlerFn) (ctx : Option Credentials)
    (m : ModelDescriptor) (raw : RawEmbeddingResult)
    (resp : CreateEmbeddingResponse)
    (hm : find_model_by_full_name request.model models = .ok m)
    (hr : inv request cb m ctx = .ok raw)
    (hresp : embeddings_handler inv request models cb ctx = .ok resp) :
    resp.usage.prompt_tokens = raw.usage.prompt_tokens ∧
      resp.usage.total_tokens = raw.usage.total_tokens := by
  rw [embeddings_handler_ok_of inv request models cb ctx m raw hm hr] at hresp
  simp only [Except.ok.injEq] at hresp
  subst hresp
  exact ⟨rfl, rfl⟩

/-- Witness for C5 at a concrete run. -/
theorem response_usage_verbatim_witness :
    (normalizeResponse dEx rawEx).usage.prompt_tokens = rawEx.usage.prompt_tokens ∧
      (normalizeResponse dEx rawEx).usage.total_tokens = rawEx.usage.total_tokens :=
  response_usage_verbatim invEx reqEx [dEx] cbEx none dEx rawEx
    (normalizeResponse dEx rawEx) rfl rfl rfl

/-- C7: for every successful response, the top-level object field is the
fixed literal string "list". -/
theorem response_object_is_list (inv : EmbeddingsInvoke)
    (request : CreateEmbeddingRequest) (models : AvailableModels)
    (cb : CallbackHandlerFn) (ctx : Option Credentials)
    (resp : CreateEmbeddingResponse)
    (hresp : embeddings_handler inv request models cb ctx = .ok resp) :
    resp.object = "list" := by
  obtain ⟨m, raw, _, _, h2⟩ :=
    embeddings_handler_ok_elim inv request models cb ctx resp hresp
  subst h2
  rfl

/-- Witness for C7 at a concrete run. -/
theorem response_object_is_list_witness :
    (normalizeResponse dEx rawEx).object = "list" :=
  response_object_is_list invEx reqEx [dEx] cbEx none
    (normalizeResponse dEx rawEx) rfl

/-- C1: for every inbound request whose model name has no exact-match
entry in the AvailableModels table, the handler fails with ModelNotFound
and the inference engine is never invoked (Stage.invoke never appears in
the trace, so no call to the engine is made and no success response is
produced); for every registered name, resolution returns the exact
matching descriptor. -/
theorem model_resolution_exact_or_not_found (name : String)
    (models : AvailableModels) (request : CreateEmbeddingRequest)
    (cb : CallbackHandlerFn) (ctx : Option Credentials) :
    ((∀ d ∈ models, d.full_name ≠ name) →
      find_model_by_full_name name models = .error (.modelNotFound name)) ∧
    (∀ inv : EmbeddingsInvoke, request.model = name →
      (∀ d ∈ models, d.full_name ≠ name) →
        embeddings_handler inv request models cb ctx =
            .error (.modelNotFound name) ∧
          Stage.invoke ∉ (embeddings_handler_traced inv request models cb ctx).2) ∧
    (∀ d ∈ models, d.full_name = name →
      (∀ d' ∈ models, d'.full_name = name → d' = d) →
        find_model_by_full_name name models = .ok d) := by
  have hnone : (∀ d ∈ models, d.full_name ≠ name) →
      models.find? (fun d => d.full_name == name) = none := by
    intro h
    rw [List.find?_eq_none]
    intro x hx
    simpa using h x hx
  refine ⟨?_, ?_, ?_⟩
  · intro h
    unfold find_model_by_full_name
    rw [hnone h]
  · intro inv hreq h
    have hf : find_model_by_full_name request.model models =
        .error (.modelNotFound name) := by
      unfold find_model_by_full_name
      rw [hreq, hnone h]
    refine ⟨embeddings_handler_resolve_error inv request models cb ctx _ hf, ?_⟩
    unfold embeddings_handler_traced
    rw [hf]
    simp
  · intro d hd hdname huniq
    unfold find_model_by_full_name
    cases hf : models.find? (fun d => d.full_name == name) with
    | none =>
      rw [List.find?_eq_none] at hf
      exact absurd hdname (by simpa using hf d hd)
    | some d2 =>
      have h1 : d2.full_name = name := by simpa using List.find?_some hf
      have h2 : d2 ∈ models := List.mem_of_find?_eq_some hf
      rw [huniq d2 h2 h1]

/-- Witness for C1: an unregistered name fails with ModelNotFound, and a
registered name resolves to its exact descriptor. -/
theorem model_resolution_exact_or_not_found_witness :
    embeddings_handler invEx { model := "unknown/model", input := ["hello"] }
        [dEx] cbEx none = .error (.modelNotFound "unknown/model") ∧
      find_model_by_full_name "provider-x/embed-small" [dEx] = .ok dEx := by
  constructor
  · exact ((model_resolution_exact_or_not_found "unknown/model" [dEx]
      { model := "unknown/model", input := ["hello"] } cbEx none).2.1 invEx rfl
      (by decide)).1
  · exact (model_resolution_exact_or_not_found "provider-x/embed-small" [dEx]
      reqEx cbEx none).2.2 dEx (by decide) (by decide) (by decide)

/-- C4: every failure of the engine invocation is propagated upward
unmodified (the handler returns exactly the invocation's error, no retry,
no reinterpretation), and the handler's result is exclusively either a
complete normalized response or an error — never a partial response. -/
theorem engine_errors_propagated_unmodified (inv : EmbeddingsInvoke)
    (request : CreateEmbeddingRequest) (models : AvailableModels)
    (cb : CallbackHandlerFn) (ctx : Option Credentials) :
    (∀ m e, find_model_by_full_name request.model models = .ok m →
      inv request cb m ctx = .error e →
        embeddings_handler inv request models cb ctx = .error e) ∧
    (∀ resp, embeddings_handler inv request models cb ctx = .ok resp →
      ∃ m raw, find_model_by_full_name request.model models = .ok m ∧
        inv request cb m ctx = .ok raw ∧ resp = normalizeResponse m raw) ∧
    (∀ resp e, embeddings_handler inv request models cb ctx = .ok resp →
      embeddings_handler inv request models cb ctx = .error e → False) := by
  refine ⟨?_, ?_, ?_⟩
  · intro m e hm hr
    exact embeddings_handler_invoke_error inv request models cb ctx m e hm hr
  · intro resp h
    exact embeddings_handler_ok_elim inv request models cb ctx resp h
  · intro resp e h1 h2
    rw [h1] at h2
    exact absurd h2 (by simp)

/-- Witness for C4: a simulated network failure is returned verbatim. -/
theorem engine_errors_propagated_unmodified_witness :
    embeddings_handler invErrEx reqEx [dEx] cbEx none =
      .error (.engineError "network") :=
  (engine_errors_propagated_unmodified invErrEx reqEx [dEx] cbEx none).1
    dEx (.engineError "network") rfl rfl

/-- C6: when the model name resolves, the absence of a credential bundle
in the request context does not make the handler fail before invocation:
the extractor yields none, that none is passed through to the invocation,
and the handler's outcome is exactly the invocation's outcome (normalized
on success) — so any credential-requirement failure can only originate
from the invocation. -/
theorem missing_credentials_reach_invocation (inv : EmbeddingsInvoke)
    (request : CreateEmbeddingRequest) (models : AvailableModels)
    (cb : CallbackHandlerFn) (m : ModelDescriptor)
    (hm : find_model_by_full_name request.model models = .ok m) :
    embeddings_handler inv request models cb none =
      Except.map (normalizeResponse m) (inv request cb m none) := by
  cases hr : inv request cb m none with
  | error e =>
    rw [embeddings_handler_invoke_error inv request models cb none m e hm hr]
    rfl
  | ok raw =>
    rw [embeddings_handler_ok_of inv request models cb none m raw hm hr]
    rfl

/-- Witness for C6 at a concrete run with no credentials attached. -/
theorem missing_credentials_reach_invocation_witness :
    embeddings_handler invEx reqEx [dEx] cbEx none =
      Except.map (normalizeResponse dEx) (invEx reqEx cbEx dEx none) :=
  missing_credentials_reach_invocation invEx reqEx [dEx] cbEx dEx rfl

/-- C8: within one request the four stages execute strictly in sequence —
resolve, then extract, then invoke, then normalize — with no loops, no
retries, no backward transitions, each stage terminal on failure, and
resolution running before any credential work or invocation. -/
theorem request_flow_strictly_linear (inv : EmbeddingsInvoke)
    (request : CreateEmbeddingRequest) (models : AvailableModels)
    (cb : CallbackHandlerFn) (ctx : Option Credentials) :
    (embeddings_handler_traced inv request models cb ctx).1 =
      embeddings_handler inv request models cb ctx ∧
    (embeddings_handler_traced inv request models cb ctx).2 =
      (match find_model_by_full_name request.model models with
        | .error _ => [Stage.resolve]
        | .ok m =>
          match inv request cb m ctx with
          | .error _ => [Stage.resolve, Stage.extract, Stage.invoke]
          | .ok _ =>
            [Stage.resolve, Stage.extract, Stage.invoke, Stage.normalize]) := by
  refine ⟨embeddings_handler_traced_fst inv request models cb ctx, ?_⟩
  cases h : find_model_by_full_name request.model models with
  | error e => simp [embeddings_handler_traced, h]
  | ok m =>
    cases h2 : inv request cb m ctx with
    | error e => simp [embeddings_handler_traced, h, h2]
    | ok raw => simp [embeddings_handler_traced, h, h2]

/-- C9: normalization has no failure modes of its own: the handler
succeeds exactly when resolution and invocation both succeed, and every
successful invocation — including one with empty data or zero counters —
yields the normalized success response. -/
theorem normalization_never_fails (inv : EmbeddingsInvoke)
    (request : CreateEmbeddingRequest) (models : AvailableModels)
    (cb : CallbackHandlerFn) (ctx : Option Credentials) :
    ((∃ resp, embeddings_handler inv request models cb ctx = .ok resp) ↔
      ∃ m raw, find_model_by_full_name request.model models = .ok m ∧
        inv request cb m ctx = .ok raw) ∧
    (∀ m raw, find_model_by_full_name request.model models = .ok m →
      inv request cb m ctx = .ok raw →
        embeddings_handler inv request models cb ctx =
          .ok (normalizeResponse m raw)) := by
  constructor
  · constructor
    · rintro ⟨resp, h⟩
      obtain ⟨m, raw, hm, hr, _⟩ :=
        embeddings_handler_ok_elim inv request models cb ctx resp h
      exact ⟨m, raw, hm, hr⟩
    · rintro ⟨m, raw, hm, hr⟩
      exact ⟨normalizeResponse m raw,
        embeddings_handler_ok_of inv request models cb ctx m raw hm hr⟩
  · intro m raw hm hr
    exact embeddings_handler_ok_of inv request models cb ctx m raw hm hr

/-- Witness for C9: an invocation returning an empty data sequence and
zero counters still yields a success response. -/
theorem normalization_never_fails_witness :
    embeddings_handler invEmptyEx reqEx [dEx] cbEx none =
      .ok (normalizeResponse dEx rawEmptyEx) :=
  (normalization_never_fails invEmptyEx reqEx [dEx] cbEx none).2
    dEx rawEmptyEx rfl rfl

/-- C10: the normalized response is determined solely by the resolved
descriptor and the engine's raw result: any two runs that resolve to the
same descriptor and receive the same raw result produce identical
responses, regardless of credentials, callback sink, registry contents or
any other field of the client request. -/
theorem response_noninterference (inv1 inv2 : EmbeddingsInvoke)
    (req1 req2 : CreateEmbeddingRequest) (models1 models2 : AvailableModels)
    (cb1 cb2 : CallbackHandlerFn) (ctx1 ctx2 : Option Credentials)
    (m : ModelDescriptor) (raw : RawEmbeddingResult)
    (h1 : find_model_by_full_name req1.model models1 = .ok m)
    (h2 : find_model_by_full_name req2.model models2 = .ok m)
    (hi1 : inv1 req1 cb1 m ctx1 = .ok raw)
    (hi2 : inv2 req2 cb2 m ctx2 = .ok raw) :
    embeddings_handler inv1 req1 models1 cb1 ctx1 =
      embeddings_handler inv2 req2 models2 cb2 ctx2 := by
  rw [embeddings_handler_ok_of inv1 req1 models1 cb1 ctx1 m raw h1 hi1,
    embeddings_handler_ok_of inv2 req2 models2 cb2 ctx2 m raw h2 hi2]

/-- Witness for C10: two runs with different inputs, credentials and sink
handles but the same descriptor and raw result give identical responses. -/
theorem response_noninterference_witness :
    embeddings_handler invEx reqEx [dEx] cbEx none =
      embeddings_handler invEx reqEx2 [dEx] { tag := "other" } (some credEx) :=
  response_noninterference invEx invEx reqEx reqEx2 [dEx] [dEx]
    cbEx { tag := "other" } none (some credEx) dEx rawEx rfl rfl rfl rfl
